import Mathlib

/-!
Shallow embedding of the Flask observability demo application (src/app.py).

Modelling conventions:
* JSON values are modelled by the inductive `Json`; numbers are rationals
  (Python floats/ints are not IEEE-modelled; every numeric constant in the
  program is exactly representable).
* The process-wide telemetry registry and the `_active_users_count` global
  are gathered in a `RegState` record, threaded explicitly through handlers.
* Every call the handlers make into the random module (`random.random`,
  `random.randint`, `random.uniform`, `random.choice`) is replaced by an
  explicit oracle input to the handler; range facts such as
  `randint(1000, 9999) ∈ [1000, 9999]` become hypotheses.
* `time.sleep` / `time.time` wall-clock effects are summarised by an oracle
  input giving the elapsed duration actually observed.
* A handler body that can raise a Python exception (attribute access on the
  result of `request.get_json()`, histogram observation of a non-numeric
  value) returns `RegState × Except PyFault Response`: the state component
  carries all mutations performed before the raise, matching Python's
  lack of rollback on exceptions.
-/

namespace FlaskDemo

/-- JSON values; numbers are modelled as rationals. -/
inductive Json where
  | null
  | bool (b : Bool)
  | num (q : ℚ)
  | str (s : String)
  | arr (xs : List Json)
  | obj (kvs : List (String × Json))

/-- Python exceptions our embedded handlers can raise. -/
inductive PyFault where
  | attributeError
  | typeError
  deriving DecidableEq

/-- Short rendering of a fault, standing in for Python str(error). -/
def PyFault.msg : PyFault → String
  | .attributeError => "AttributeError"
  | .typeError => "TypeError"

/-- Log levels used by the structured logger. -/
inductive LogLevel where
  | info
  | warning
  | error
  deriving DecidableEq

/-- One structured log record: level, message, attribute mapping (extra). -/
structure LogEvent where
  level : LogLevel
  msg : String
  attrs : List (String × Json)

/-- A metric registration: name, help string, label names.  Mirrors the
Counter/Histogram/Gauge constructor calls at src/app.py lines 27-31. -/
structure MetricDecl where
  name : String
  desc : String
  labelNames : List String

/-- `Counter('orders_total', 'Total number of orders', ['status'])` -/
def order_counter_decl : MetricDecl :=
  { name := "orders_total", desc := "Total number of orders", labelNames := ["status"] }

/-- `Histogram('order_value_dollars', 'Order value in dollars')` -/
def order_value_decl : MetricDecl :=
  { name := "order_value_dollars", desc := "Order value in dollars", labelNames := [] }

/-- `Gauge('active_users', 'Number of active users')` -/
def active_users_decl : MetricDecl :=
  { name := "active_users", desc := "Number of active users", labelNames := [] }

/-- `Histogram('database_query_duration_seconds', 'Database query duration',
['query_type'])` — note the registered metric name carries the
`_seconds` suffix even though the Python variable is named
`database_query_duration`. -/
def database_query_duration_decl : MetricDecl :=
  { name := "database_query_duration_seconds", desc := "Database query duration",
    labelNames := ["query_type"] }

/-- The mutable process state: the custom metric instruments plus the
`_active_users_count` module global and the structured-log sink.
(The default instruments auto-registered by `PrometheusMetrics(app)` are out
of scope, as the spec scopes out the exposition transport.) -/
structure RegState where
  /-- value of counter `orders_total{status="success"}` (count of unit increments) -/
  ordersSuccess : ℕ
  /-- value of counter `orders_total{status="failed"}` -/
  ordersFailed : ℕ
  /-- observations of histogram `order_value_dollars`, most recent first -/
  orderValueObs : List ℚ
  /-- observations of histogram `database_query_duration_seconds`
  as (query_type label, value), most recent first -/
  dbQueryObs : List (String × ℚ)
  /-- current value of gauge `active_users` (only integer mutations occur) -/
  activeUsersGauge : ℤ
  /-- the Python module global `_active_users_count` -/
  activeUsersCount : ℤ
  /-- structured log records, chronological order -/
  logs : List LogEvent

/-- Process start-up state: `_active_users_count = random.randint(10, 50)`
(the draw is the parameter `i`), `active_users.set(_active_users_count)`,
all other instruments at zero/empty (src/app.py lines 33-35). -/
def initState (i : ℤ) : RegState :=
  { ordersSuccess := 0, ordersFailed := 0, orderValueObs := [], dbQueryObs := [],
    activeUsersGauge := i, activeUsersCount := i, logs := [] }

/-- `order_data.get(key, default)` where `order_data` is the result of
`request.get_json()`: `none` models get_json returning Python None (a JSON
`null` body; in Flask versions predating the strict get_json it is also an
absent body).  Attribute access `.get` on None, or on a non-dict JSON value
(list, string, number), raises AttributeError. -/
def pyGet (o : Option Json) (k : String) (d : Json) : Except PyFault Json :=
  match o with
  | none => .error .attributeError
  | some (.obj kvs) => .ok ((kvs.lookup k).getD d)
  | some _ => .error .attributeError

/-- Numeric coercion performed by `Histogram.observe` / arithmetic on the
observed amount: Python bools are ints; strings, None, lists and dicts make
the observation raise TypeError. -/
def Json.asNum : Json → Option ℚ
  | .num q => some q
  | .bool b => some (if b then 1 else 0)
  | _ => none

/-- `observe(v)` on a histogram: succeeds with the numeric value, raises
TypeError on a non-numeric argument. -/
def observeVal (j : Json) : Except PyFault ℚ :=
  match j.asNum with
  | some q => .ok q
  | none => .error .typeError

/-- An HTTP response: status code and (JSON or plain text) body. -/
structure Response where
  status : ℕ
  body : Json

/-- Oracle inputs consumed by one invocation of `create_order`:
the elapsed time observed for the simulated insert, the `random.random()`
draw deciding success, and the two `random.randint(1000, 9999)` draws
(one inside the log record, one in the response body). -/
structure OrderRand where
  elapsed : ℚ
  u : ℚ
  logId : ℕ
  respId : ℕ

/-- The log record emitted on the success branch of `create_order`
(src/app.py lines 83-87): the order_id attribute is a fresh
`random.randint(1000, 9999)` draw, independent of the response's. -/
def orderSuccessLog (logId : ℕ) (amt cust : Json) : LogEvent :=
  { level := .info, msg := "Order created successfully",
    attrs := [("order_id", Json.num (logId : ℚ)), ("amount", amt), ("customer", cust)] }

/-- The log record emitted on the failure branch (src/app.py lines 96-99). -/
def orderFailLog (amt : Json) : LogEvent :=
  { level := .error, msg := "Order creation failed",
    attrs := [("reason", Json.str "payment_declined"), ("amount", amt)] }

/-- Response body of a successful order (src/app.py lines 89-92). -/
def orderSuccessBody (oid : ℕ) : Json :=
  .obj [("status", Json.str "success"), ("order_id", Json.num (oid : ℚ))]

/-- Response body of a declined order (src/app.py lines 101-104). -/
def orderDeclineBody : Json :=
  .obj [("status", Json.str "error"), ("message", Json.str "Payment declined")]

/-- The constant `0.1` that the `random.random()` draw is compared against
(src/app.py line 77); written `mkRat 1 10` (provably equal to `1/10`) so
that comparisons against concrete draws evaluate. -/
def successThreshold : ℚ := mkRat 1 10

/-- `POST /api/orders` handler (src/app.py lines 66-104).
Effects occur in source order: the insert-latency observation, then
`success = random.random() > 0.1`; on success the success counter is
incremented BEFORE `order_value.observe(order_data.get('amount', 0))`,
so a body on which `.get` or the observation raises still leaves the
increment and the latency observation in place (no rollback). -/
def create_order (body : Option Json) (r : OrderRand) (s : RegState) :
    RegState × Except PyFault Response :=
  let s0 := { s with dbQueryObs := ("insert", r.elapsed) :: s.dbQueryObs }
  if r.u > successThreshold then
    let s1 := { s0 with ordersSuccess := s0.ordersSuccess + 1 }
    match pyGet body "amount" (Json.num 0) with
    | .error f => (s1, .error f)
    | .ok amt =>
      match observeVal amt with
      | .error f => (s1, .error f)
      | .ok v =>
        let s2 := { s1 with orderValueObs := v :: s1.orderValueObs }
        match pyGet body "amount" (Json.num 0), pyGet body "customer" (Json.str "unknown") with
        | .error f, _ => (s2, .error f)
        | .ok _, .error f => (s2, .error f)
        | .ok amtL, .ok cust =>
          let s3 := { s2 with logs := s2.logs ++ [orderSuccessLog r.logId amtL cust] }
          (s3, .ok { status := 201, body := orderSuccessBody r.respId })
  else
    let s1 := { s0 with ordersFailed := s0.ordersFailed + 1 }
    match pyGet body "amount" (Json.num 0) with
    | .error f => (s1, .error f)
    | .ok amtL =>
      let s2 := { s1 with logs := s1.logs ++ [orderFailLog amtL] }
      (s2, .ok { status := 400, body := orderDeclineBody })

/-- `GET /api/users/<user_id>` handler (src/app.py lines 107-124).
`e1` is the elapsed duration recorded into the histogram, `e2` the (second)
elapsed reading placed in the log record. -/
def get_user (user_id : String) (e1 e2 : ℚ) (s : RegState) : Response × RegState :=
  let s1 := { s with dbQueryObs := ("select", e1) :: s.dbQueryObs }
  let s2 := { s1 with logs := s1.logs ++
    [{ level := .info, msg := "User lookup",
       attrs := [("user_id", Json.str user_id), ("query_duration", Json.num e2)] }] }
  ({ status := 200,
     body := .obj [("user_id", Json.str user_id),
                   ("username", Json.str ("user_" ++ user_id)),
                   ("active", Json.bool true)] }, s2)

/-- `GET /` handler (src/app.py lines 38-49); the timestamp and user agent
are environment inputs. -/
def home (ts userAgent : String) (s : RegState) : Response × RegState :=
  let s1 := { s with logs := s.logs ++
    [{ level := .info, msg := "Home endpoint accessed",
       attrs := [("endpoint", Json.str "/"), ("user_agent", Json.str userAgent)] }] }
  ({ status := 200,
     body := .obj [("service", Json.str "Flask Observability Demo"),
                   ("status", Json.str "running"),
                   ("timestamp", Json.str ts)] }, s1)

/-- `GET /health` handler (src/app.py lines 52-55). -/
def health (s : RegState) : Response × RegState :=
  ({ status := 200, body := .obj [("status", Json.str "healthy")] }, s)

/-- `GET /api/slow` handler (src/app.py lines 127-141); `d` is the
`random.uniform(1, 3)` draw.  The f-string interpolation of the duration
into the warning message is summarised by the constant message. -/
def slow_endpoint (d : ℚ) (s : RegState) : Response × RegState :=
  let s1 := { s with logs := s.logs ++
    [{ level := .warning, msg := "Slow endpoint accessed",
       attrs := [("endpoint", Json.str "/api/slow"), ("expected_duration", Json.num d)] }] }
  ({ status := 200,
     body := .obj [("message", Json.str "This was intentionally slow"),
                   ("duration", Json.num d)] }, s1)

/-- The fixed (status, message, reason) triples of `/api/error`
(src/app.py lines 147-151). -/
def error_types : List (ℕ × String × String) :=
  [(500, "Internal Server Error", "database_connection_failed"),
   (503, "Service Unavailable", "downstream_service_timeout"),
   (429, "Too Many Requests", "rate_limit_exceeded")]

/-- `GET /api/error` handler (src/app.py lines 144-163); `c` is the index
picked by `random.choice(error_types)` (uniform over the three entries). -/
def error_endpoint (c : Fin 3) (s : RegState) : Response × RegState :=
  let t := error_types.get ⟨c.val, c.isLt⟩
  let s1 := { s with logs := s.logs ++
    [{ level := .error, msg := "Error endpoint triggered",
       attrs := [("status_code", Json.num (t.1 : ℚ)), ("reason", Json.str t.2.2)] }] }
  ({ status := t.1, body := .obj [("error", Json.str t.2.1), ("reason", Json.str t.2.2)] }, s1)

/-- One iteration of the `/api/metrics-demo` loop (src/app.py lines 175-177):
increment `orders_total{status='success'}` and observe a
`random.uniform(10, 1000)` draw into `order_value_dollars`. -/
def demoLoopStep (st : RegState) (v : ℚ) : RegState :=
  { st with ordersSuccess := st.ordersSuccess + 1, orderValueObs := v :: st.orderValueObs }

/-- `GET /api/metrics-demo` handler (src/app.py lines 166-182).
`delta` is the `random.randint(-5, 10)` draw; `vals` are the
`random.uniform(10, 1000)` draws of the loop, whose length is the
`random.randint(1, 5)` draw.  The gauge and the module global both receive
the same delta; the response reports the module global after the update. -/
def metrics_demo (delta : ℤ) (vals : List ℚ) (s : RegState) : Response × RegState :=
  let newCount := s.activeUsersCount + delta
  let s1 := { s with activeUsersGauge := s.activeUsersGauge + delta,
                     activeUsersCount := newCount }
  let s2 := vals.foldl demoLoopStep s1
  ({ status := 200,
     body := .obj [("message", Json.str "Metrics generated"),
                   ("active_users", Json.num (newCount : ℚ))] }, s2)

/-- `@app.errorhandler(404)` (src/app.py lines 185-192). -/
def not_found (path method : String) (s : RegState) : Response × RegState :=
  let s1 := { s with logs := s.logs ++
    [{ level := .warning, msg := "404 Not Found",
       attrs := [("path", Json.str path), ("method", Json.str method)] }] }
  ({ status := 404, body := .obj [("error", Json.str "Not found")] }, s1)

/-- `@app.errorhandler(500)` (src/app.py lines 195-202): reached when a
handler raises an unhandled fault. -/
def internal_error (f : PyFault) (path : String) (s : RegState) : Response × RegState :=
  let s1 := { s with logs := s.logs ++
    [{ level := .error, msg := "500 Internal Server Error",
       attrs := [("path", Json.str path), ("error", Json.str f.msg)] }] }
  ({ status := 500, body := .obj [("error", Json.str "Internal server error")] }, s1)

/-- Snapshot of the modelled registry as (metric sample name, labels, value)
triples, in registration order, as `generate_latest` serialises them. -/
def snapshotSamples (s : RegState) : List (String × List (String × String) × ℚ) :=
  [(order_counter_decl.name, [("status", "success")], (s.ordersSuccess : ℚ)),
   (order_counter_decl.name, [("status", "failed")], (s.ordersFailed : ℚ)),
   (order_value_decl.name ++ "_count", [], (s.orderValueObs.length : ℚ)),
   (order_value_decl.name ++ "_sum", [], s.orderValueObs.sum),
   (active_users_decl.name, [], (s.activeUsersGauge : ℚ)),
   (database_query_duration_decl.name ++ "_count", [("query_type", "insert")],
     ((s.dbQueryObs.filter (fun p => p.1 == "insert")).length : ℚ)),
   (database_query_duration_decl.name ++ "_count", [("query_type", "select")],
     ((s.dbQueryObs.filter (fun p => p.1 == "select")).length : ℚ))]

/-- The value the snapshot shows for a given sample name and label set. -/
def sampleValue (name : String) (labels : List (String × String)) (s : RegState) : Option ℚ :=
  ((snapshotSamples s).find? (fun t => t.1 == name && t.2.1 == labels)).map (fun t => t.2.2)

/-- Simplified rendering of a rational value in the exposition text. -/
def ratStr (q : ℚ) : String := toString q.num ++ "/" ++ toString q.den

/-- One exposition line: `name{label="value",...} value`. -/
def renderSample (t : String × List (String × String) × ℚ) : String :=
  let labels := match t.2.1 with
    | [] => ""
    | ls => "\x7b" ++ String.intercalate ","
        (ls.map (fun p => p.1 ++ "=\"" ++ p.2 ++ "\"")) ++ "\x7d"
  t.1 ++ labels ++ " " ++ ratStr t.2.2

/-- The exposition text produced by `generate_latest` over the modelled
instruments: a pure function of the registry state. -/
def renderExposition (s : RegState) : String :=
  String.intercalate "\n" ((snapshotSamples s).map renderSample)

/-- `GET /metrics` handler (src/app.py lines 58-63): serialises the
registry snapshot; performs no mutation and no logging. -/
def metrics_endpoint (s : RegState) : Response × RegState :=
  ({ status := 200, body := Json.str (renderExposition s) }, s)

/-- The `<user_id>` URL converter of `/api/users/<user_id>`: matches any
nonempty path remainder containing no slash. -/
def user_path_param (path : String) : Option String :=
  let cs := path.toList
  let pre := "/api/users/".toList
  if pre.isPrefixOf cs then
    let rest := cs.drop 11
    if rest.isEmpty || rest.contains '/' then none
    else some (String.mk rest)
  else none

/-- Outcome of Werkzeug URL-map matching for (method, path). -/
inductive RouteMatch where
  | homeR
  | healthR
  | metricsR
  | orders
  | users (uid : String)
  | slowR
  | errorR
  | demo
  /-- path is bound to a rule but the method is not among its allowed
  methods: Werkzeug answers 405 Method Not Allowed (automatic HEAD/OPTIONS
  handling is out of scope; only the declared GET/POST methods are modelled) -/
  | methodNotAllowed
  | noMatch
  deriving DecidableEq

/-- The URL map built from the `@app.route` declarations of src/app.py:
all routes accept only GET except `/api/orders` (methods=['POST']). -/
def route (method path : String) : RouteMatch :=
  if path == "/" then (if method == "GET" then .homeR else .methodNotAllowed)
  else if path == "/health" then (if method == "GET" then .healthR else .methodNotAllowed)
  else if path == "/metrics" then (if method == "GET" then .metricsR else .methodNotAllowed)
  else if path == "/api/orders" then (if method == "POST" then .orders else .methodNotAllowed)
  else if path == "/api/slow" then (if method == "GET" then .slowR else .methodNotAllowed)
  else if path == "/api/error" then (if method == "GET" then .errorR else .methodNotAllowed)
  else if path == "/api/metrics-demo" then (if method == "GET" then .demo else .methodNotAllowed)
  else
    match user_path_param path with
    | some uid => if method == "GET" then .users uid else .methodNotAllowed
    | none => .noMatch

/-- All oracle inputs one request may consume, whichever handler runs. -/
structure Oracle where
  ord : OrderRand
  userE1 : ℚ
  userE2 : ℚ
  slowD : ℚ
  errC : Fin 3
  demoDelta : ℤ
  demoVals : List ℚ
  homeTs : String
  userAgent : String

/-- Full request dispatch: route the (method, path), run the handler, and
surface an unhandled fault through the 500 error handler.  Werkzeug's
default 405 response carries an HTML body, summarised here as a string. -/
def dispatch (method path : String) (body : Option Json) (o : Oracle) (s : RegState) :
    Response × RegState :=
  match route method path with
  | .homeR => home o.homeTs o.userAgent s
  | .healthR => health s
  | .metricsR => metrics_endpoint s
  | .orders =>
    match create_order body o.ord s with
    | (s2, .ok resp) => (resp, s2)
    | (s2, .error f) => internal_error f path s2
  | .users uid => get_user uid o.userE1 o.userE2 s
  | .slowR => slow_endpoint o.slowD s
  | .errorR => error_endpoint o.errC s
  | .demo => metrics_demo o.demoDelta o.demoVals s
  | .methodNotAllowed => ({ status := 405, body := Json.str "Method Not Allowed" }, s)
  | .noMatch => not_found path method s

/-- One inbound request: method, path, parsed JSON body (the get_json
result), and the randomness it consumes. -/
structure Request where
  method : String
  path : String
  body : Option Json
  oracle : Oracle

/-- State reached after serving a request. -/
def Request.exec (req : Request) (s : RegState) : RegState :=
  (dispatch req.method req.path req.body req.oracle s).2

/-- State reached after serving a sequence of requests in order. -/
def run (s : RegState) (reqs : List Request) : RegState :=
  reqs.foldl (fun st req => req.exec st) s

/-- Number of `orders_total{status="success"}` increments a request
performs: 1 for an order request whose success draw exceeds 0.1 (the
increment precedes any fault), the loop length for a metrics-demo request,
0 otherwise. -/
def successIncs (req : Request) : ℕ :=
  match route req.method req.path with
  | .orders => if req.oracle.ord.u > successThreshold then 1 else 0
  | .demo => req.oracle.demoVals.length
  | _ => 0

/-- Number of `orders_total{status="failed"}` increments a request performs. -/
def failedIncs (req : Request) : ℕ :=
  match route req.method req.path with
  | .orders => if req.oracle.ord.u > successThreshold then 0 else 1
  | _ => 0

/-- Total success-counter increments over a request sequence. -/
def totalSuccessIncs (reqs : List Request) : ℕ := (reqs.map successIncs).sum

/-- The request body `{"amount": 100, "customer": "alice"}` of the spec's
order scenario. -/
def aliceBody : Json := .obj [("amount", Json.num 100), ("customer", Json.str "alice")]

/-- A fixed oracle used to build concrete witness requests. -/
def oracle0 : Oracle :=
  { ord := { elapsed := 0, u := 1, logId := 1000, respId := 1001 },
    userE1 := 0, userE2 := 0, slowD := 1, errC := 0,
    demoDelta := 0, demoVals := [], homeTs := "", userAgent := "" }

/-- State reached after a sequence of `/api/metrics-demo` invocations, each
given by its gauge delta and its list of loop draws. -/
def runDemo (s : RegState) (calls : List (ℤ × List ℚ)) : RegState :=
  calls.foldl (fun st c => (metrics_demo c.1 c.2 st).2) s

/-! ### Per-handler effect lemmas -/

theorem create_order_fst_ordersSuccess (b : Option Json) (r : OrderRand) (s : RegState) :
    ((create_order b r s).1).ordersSuccess
      = s.ordersSuccess + (if r.u > successThreshold then 1 else 0) := by
  unfold create_order
  dsimp only
  split_ifs <;> (repeat' split) <;> rfl

theorem create_order_fst_ordersFailed (b : Option Json) (r : OrderRand) (s : RegState) :
    ((create_order b r s).1).ordersFailed
      = s.ordersFailed + (if r.u > successThreshold then 0 else 1) := by
  unfold create_order
  dsimp only
  split_ifs <;> (repeat' split) <;> rfl

theorem create_order_fst_dbQueryObs (b : Option Json) (r : OrderRand) (s : RegState) :
    ((create_order b r s).1).dbQueryObs = ("insert", r.elapsed) :: s.dbQueryObs := by
  unfold create_order
  dsimp only
  split_ifs <;> (repeat' split) <;> rfl

theorem create_order_fst_activeUsersGauge (b : Option Json) (r : OrderRand) (s : RegState) :
    ((create_order b r s).1).activeUsersGauge = s.activeUsersGauge := by
  unfold create_order
  dsimp only
  split_ifs <;> (repeat' split) <;> rfl

theorem demoLoop_ordersSuccess (vals : List ℚ) (st : RegState) :
    (vals.foldl demoLoopStep st).ordersSuccess = st.ordersSuccess + vals.length := by
  induction vals generalizing st with
  | nil => simp
  | cons v vs ih =>
    rw [List.foldl_cons, ih]
    simp [demoLoopStep]
    omega

theorem demoLoop_ordersFailed (vals : List ℚ) (st : RegState) :
    (vals.foldl demoLoopStep st).ordersFailed = st.ordersFailed := by
  induction vals generalizing st with
  | nil => simp
  | cons v vs ih => rw [List.foldl_cons, ih]; rfl

theorem demoLoop_activeUsersGauge (vals : List ℚ) (st : RegState) :
    (vals.foldl demoLoopStep st).activeUsersGauge = st.activeUsersGauge := by
  induction vals generalizing st with
  | nil => simp
  | cons v vs ih => rw [List.foldl_cons, ih]; rfl

theorem metrics_demo_snd_ordersSuccess (d : ℤ) (vals : List ℚ) (s : RegState) :
    (metrics_demo d vals s).2.ordersSuccess = s.ordersSuccess + vals.length := by
  unfold metrics_demo
  dsimp only
  rw [demoLoop_ordersSuccess]

theorem metrics_demo_snd_ordersFailed (d : ℤ) (vals : List ℚ) (s : RegState) :
    (metrics_demo d vals s).2.ordersFailed = s.ordersFailed := by
  unfold metrics_demo
  dsimp only
  rw [demoLoop_ordersFailed]

theorem metrics_demo_snd_activeUsersGauge (d : ℤ) (vals : List ℚ) (s : RegState) :
    (metrics_demo d vals s).2.activeUsersGauge = s.activeUsersGauge + d := by
  unfold metrics_demo
  dsimp only
  rw [demoLoop_activeUsersGauge]

/-! ### Dispatch-level effect lemmas -/

theorem exec_ordersSuccess (req : Request) (s : RegState) :
    (req.exec s).ordersSuccess = s.ordersSuccess + successIncs req := by
  unfold Request.exec dispatch successIncs
  cases h : route req.method req.path
  case orders =>
    simp only [h]
    have hS := create_order_fst_ordersSuccess req.body req.oracle.ord s
    rcases hc : create_order req.body req.oracle.ord s with ⟨s2, res⟩
    rw [hc] at hS
    cases res
    · exact hS
    · exact hS
  case demo =>
    simp only [h]
    exact metrics_demo_snd_ordersSuccess _ _ _
  all_goals simp only [h]
  all_goals rfl

theorem exec_ordersFailed (req : Request) (s : RegState) :
    (req.exec s).ordersFailed = s.ordersFailed + failedIncs req := by
  unfold Request.exec dispatch failedIncs
  cases h : route req.method req.path
  case orders =>
    simp only [h]
    have hF := create_order_fst_ordersFailed req.body req.oracle.ord s
    rcases hc : create_order req.body req.oracle.ord s with ⟨s2, res⟩
    rw [hc] at hF
    cases res
    · exact hF
    · exact hF
  case demo =>
    simp only [h]
    exact metrics_demo_snd_ordersFailed _ _ _
  all_goals simp only [h]
  all_goals rfl

theorem run_ordersSuccess (reqs : List Request) (s : RegState) :
    (run s reqs).ordersSuccess = s.ordersSuccess + totalSuccessIncs reqs := by
  induction reqs generalizing s with
  | nil => simp [run, totalSuccessIncs]
  | cons r rs ih =>
    show (run (r.exec s) rs).ordersSuccess = _
    rw [ih, exec_ordersSuccess]
    simp [totalSuccessIncs]
    omega

theorem run_ordersFailed (reqs : List Request) (s : RegState) :
    (run s reqs).ordersFailed = s.ordersFailed + (reqs.map failedIncs).sum := by
  induction reqs generalizing s with
  | nil => simp [run]
  | cons r rs ih =>
    show (run (r.exec s) rs).ordersFailed = _
    rw [ih, exec_ordersFailed]
    simp
    omega


/-! ### Evaluation lemmas for create_order -/

theorem create_order_obj_eval (kvs : List (String × Json)) (r : OrderRand) (s : RegState)
    (a : ℚ) (hu : r.u > successThreshold)
    (ha : Json.asNum ((kvs.lookup "amount").getD (Json.num 0)) = some a) :
    create_order (some (.obj kvs)) r s =
      ({ s with dbQueryObs := ("insert", r.elapsed) :: s.dbQueryObs,
                ordersSuccess := s.ordersSuccess + 1,
                orderValueObs := a :: s.orderValueObs,
                logs := s.logs ++
                  [orderSuccessLog r.logId ((kvs.lookup "amount").getD (Json.num 0))
                    ((kvs.lookup "customer").getD (Json.str "unknown"))] },
       .ok { status := 201, body := orderSuccessBody r.respId }) := by
  unfold create_order
  dsimp only
  rw [if_pos hu]
  simp only [pyGet]
  unfold observeVal
  rw [ha]

theorem create_order_obj_eval_fail (kvs : List (String × Json)) (r : OrderRand)
    (s : RegState) (hu : ¬ r.u > successThreshold) :
    create_order (some (.obj kvs)) r s =
      ({ s with dbQueryObs := ("insert", r.elapsed) :: s.dbQueryObs,
                ordersFailed := s.ordersFailed + 1,
                logs := s.logs ++ [orderFailLog ((kvs.lookup "amount").getD (Json.num 0))] },
       .ok { status := 400, body := orderDeclineBody }) := by
  unfold create_order
  dsimp only
  rw [if_neg hu]
  simp only [pyGet]

theorem create_order_none_raises (r : OrderRand) (s : RegState) :
    (create_order none r s).2 = .error .attributeError := by
  unfold create_order
  dsimp only
  split_ifs <;> rfl

theorem runDemo_activeUsersGauge (calls : List (ℤ × List ℚ)) (s0 : RegState) :
    (runDemo s0 calls).activeUsersGauge
      = s0.activeUsersGauge + (calls.map Prod.fst).sum := by
  induction calls generalizing s0 with
  | nil => simp [runDemo]
  | cons c cs ih =>
    show (runDemo (metrics_demo c.1 c.2 s0).2 cs).activeUsersGauge = _
    rw [ih, metrics_demo_snd_activeUsersGauge]
    simp
    omega

theorem successThreshold_eq : successThreshold = 1/10 := by
  unfold successThreshold
  rw [Rat.mkRat_eq_div]
  norm_num


/-! ### Claim theorems -/

/-- Claim C1 (corrected), counterexample: with no usable JSON body
(get_json yields None, e.g. a JSON null body), `order_data.get` raises
AttributeError instead of defaulting the amount to 0, and the request is
surfaced as a 500 rather than the usual 201-or-400 response. -/
theorem create_order_none_body_faults_cx :
    (create_order none { elapsed := 0, u := 1, logId := 1000, respId := 1001 }
        (initState 30)).2 = .error .attributeError ∧
    (dispatch "POST" "/api/orders" none oracle0 (initState 30)).1.status = 500 :=
  ⟨rfl, rfl⟩

/-- Claim C1 (amended): when the request body parses to a JSON object whose
`amount` field is absent, `create_order` uses 0 as the amount for the
`order_value_dollars` observation (the observation happens exactly on the
success branch) and completes normally with its usual 201-or-400 response;
but when get_json yields None the handler raises an unhandled
AttributeError. -/
theorem create_order_missing_amount_defaults_zero
    (kvs : List (String × Json)) (r : OrderRand) (s : RegState)
    (r2 : OrderRand) (s2 : RegState)
    (hnone : kvs.lookup "amount" = none) :
    (∃ resp : Response,
      (create_order (some (.obj kvs)) r s).2 = .ok resp ∧
      (resp.status = 201 ∨ resp.status = 400)) ∧
    ((create_order (some (.obj kvs)) r s).1).orderValueObs
      = (if r.u > successThreshold then 0 :: s.orderValueObs else s.orderValueObs) ∧
    (create_order none r2 s2).2 = .error .attributeError := by
  have ha : Json.asNum ((kvs.lookup "amount").getD (Json.num 0)) = some 0 := by
    rw [hnone]; rfl
  by_cases hu : r.u > successThreshold
  · rw [create_order_obj_eval kvs r s 0 hu ha]
    exact ⟨⟨_, rfl, Or.inl rfl⟩, by rw [if_pos hu], create_order_none_raises r2 s2⟩
  · rw [create_order_obj_eval_fail kvs r s hu]
    exact ⟨⟨_, rfl, Or.inr rfl⟩, by rw [if_neg hu], create_order_none_raises r2 s2⟩

/-- Witness for the amended C1 at a concrete input: body
{"customer": "alice"} (no amount), a success draw, and the None-body fault. -/
theorem create_order_missing_amount_defaults_zero_witness :
    (∃ resp : Response,
      (create_order (some (.obj [("customer", Json.str "alice")]))
          { elapsed := 0, u := 1, logId := 1000, respId := 1001 } (initState 30)).2
        = .ok resp ∧ (resp.status = 201 ∨ resp.status = 400)) ∧
    ((create_order (some (.obj [("customer", Json.str "alice")]))
        { elapsed := 0, u := 1, logId := 1000, respId := 1001 } (initState 30)).1).orderValueObs
      = (if (1 : ℚ) > successThreshold then 0 :: (initState 30).orderValueObs
         else (initState 30).orderValueObs) ∧
    (create_order none { elapsed := 0, u := 1, logId := 1000, respId := 1001 }
        (initState 30)).2 = .error .attributeError :=
  create_order_missing_amount_defaults_zero [("customer", Json.str "alice")]
    { elapsed := 0, u := 1, logId := 1000, respId := 1001 } (initState 30)
    { elapsed := 0, u := 1, logId := 1000, respId := 1001 } (initState 30) rfl

/-- Claim C2: POST /api/orders with {"amount":100,"customer":"alice"}
returns 201 exactly when the uniform draw exceeds 0.1 (successThreshold =
1/10), a 201 body carrying status "success" and the drawn order_id in
[1000, 9999], and otherwise exactly the 400 Payment-declined body. -/
theorem create_order_alice_contract (r : OrderRand) (s : RegState)
    (h1 : 1000 ≤ r.respId) (h2 : r.respId ≤ 9999) :
    ∃ resp : Response,
      (create_order (some aliceBody) r s).2 = .ok resp ∧
      resp = (if r.u > successThreshold
              then { status := 201, body := orderSuccessBody r.respId }
              else { status := 400, body := orderDeclineBody }) ∧
      (resp.status = 201 ∨ resp.status = 400) ∧
      (resp.status = 201 ↔ r.u > successThreshold) ∧
      1000 ≤ r.respId ∧ r.respId ≤ 9999 ∧
      successThreshold = 1/10 := by
  by_cases hu : r.u > successThreshold
  · refine ⟨{ status := 201, body := orderSuccessBody r.respId }, ?_, ?_, Or.inl rfl,
      ?_, h1, h2, successThreshold_eq⟩
    · rw [show aliceBody = Json.obj [("amount", Json.num 100), ("customer", Json.str "alice")]
          from rfl,
        create_order_obj_eval [("amount", Json.num 100), ("customer", Json.str "alice")]
          r s 100 hu rfl]
    · rw [if_pos hu]
    · exact iff_of_true rfl hu
  · refine ⟨{ status := 400, body := orderDeclineBody }, ?_, ?_, Or.inr rfl,
      ?_, h1, h2, successThreshold_eq⟩
    · rw [show aliceBody = Json.obj [("amount", Json.num 100), ("customer", Json.str "alice")]
          from rfl,
        create_order_obj_eval_fail [("amount", Json.num 100), ("customer", Json.str "alice")]
          r s hu]
    · rw [if_neg hu]
    · exact iff_of_false (by decide) hu

/-- Witness for C2 at the concrete draw u = 1 (success) and order id 1234. -/
theorem create_order_alice_contract_witness :
    ∃ resp : Response,
      (create_order (some aliceBody)
          { elapsed := 0, u := 1, logId := 1000, respId := 1234 } (initState 30)).2
        = .ok resp ∧
      resp = (if (1 : ℚ) > successThreshold
              then { status := 201, body := orderSuccessBody 1234 }
              else { status := 400, body := orderDeclineBody }) ∧
      (resp.status = 201 ∨ resp.status = 400) ∧
      (resp.status = 201 ↔ (1 : ℚ) > successThreshold) ∧
      1000 ≤ 1234 ∧ 1234 ≤ 9999 ∧
      successThreshold = 1/10 :=
  create_order_alice_contract
    { elapsed := 0, u := 1, logId := 1000, respId := 1234 } (initState 30)
    (by decide) (by decide)

/-- Claim C3: after any request sequence from process start-up, the
/metrics snapshot's sample for orders_total{status="success"} equals the
number of order requests that took the success branch plus the total loop
iterations of all metrics-demo requests. -/
theorem orders_total_success_snapshot_exact (i : ℤ) (reqs : List Request) :
    sampleValue "orders_total" [("status", "success")] (run (initState i) reqs)
      = some ((totalSuccessIncs reqs : ℕ) : ℚ) := by
  have h : sampleValue "orders_total" [("status", "success")] (run (initState i) reqs)
      = some (((run (initState i) reqs).ordersSuccess : ℚ)) := rfl
  rw [h, run_ordersSuccess]
  norm_num [initState]

/-- Claim C4: a metrics-demo call with delta in [-5, 10] adds the delta to
the active_users gauge, responds 200 with the new active-user total, and
over any sequence of calls the cumulative gauge change is the sum of the
sampled deltas. -/
theorem metrics_demo_gauge_delta (d : ℤ) (vals : List ℚ) (s : RegState)
    (calls : List (ℤ × List ℚ)) (s0 : RegState)
    (h1 : -5 ≤ d) (h2 : d ≤ 10) :
    (-5 ≤ d ∧ d ≤ 10) ∧
    (metrics_demo d vals s).1.status = 200 ∧
    (metrics_demo d vals s).1.body
      = .obj [("message", Json.str "Metrics generated"),
              ("active_users", Json.num ((s.activeUsersCount + d : ℤ) : ℚ))] ∧
    (metrics_demo d vals s).2.activeUsersGauge = s.activeUsersGauge + d ∧
    (runDemo s0 calls).activeUsersGauge
      = s0.activeUsersGauge + (calls.map Prod.fst).sum :=
  ⟨⟨h1, h2⟩, rfl, rfl, metrics_demo_snd_activeUsersGauge d vals s,
    runDemo_activeUsersGauge calls s0⟩

/-- Witness for C4 at delta 3 and a two-call sequence with deltas 2 and -5. -/
theorem metrics_demo_gauge_delta_witness :
    (-5 ≤ (3 : ℤ) ∧ (3 : ℤ) ≤ 10) ∧
    (metrics_demo 3 [50] (initState 20)).1.status = 200 ∧
    (metrics_demo 3 [50] (initState 20)).1.body
      = .obj [("message", Json.str "Metrics generated"),
              ("active_users", Json.num (((initState 20).activeUsersCount + 3 : ℤ) : ℚ))] ∧
    (metrics_demo 3 [50] (initState 20)).2.activeUsersGauge
      = (initState 20).activeUsersGauge + 3 ∧
    (runDemo (initState 7) [(2, [20, 30]), (-5, [])]).activeUsersGauge
      = (initState 7).activeUsersGauge + ([(2, [20, 30]), (-5, [])].map Prod.fst).sum :=
  metrics_demo_gauge_delta 3 [50] (initState 20) [(2, [20, 30]), (-5, [])] (initState 7)
    (by decide) (by decide)

/-- Claim C5: /api/error returns one of 500/503/429 with the body fields of
the fixed triple for that status; the random.choice index is uniform over
the three-element error_types list, each index selecting exactly one of the
three triples (surjectively, as the last conjuncts exhibit). -/
theorem error_endpoint_triples (c : Fin 3) (s : RegState) :
    (((error_endpoint c s).1.status = 500 ∧
      (error_endpoint c s).1.body
        = .obj [("error", Json.str "Internal Server Error"),
                ("reason", Json.str "database_connection_failed")]) ∨
     ((error_endpoint c s).1.status = 503 ∧
      (error_endpoint c s).1.body
        = .obj [("error", Json.str "Service Unavailable"),
                ("reason", Json.str "downstream_service_timeout")]) ∨
     ((error_endpoint c s).1.status = 429 ∧
      (error_endpoint c s).1.body
        = .obj [("error", Json.str "Too Many Requests"),
                ("reason", Json.str "rate_limit_exceeded")])) ∧
    (error_endpoint 0 s).1.status = 500 ∧
    (error_endpoint 1 s).1.status = 503 ∧
    (error_endpoint 2 s).1.status = 429 ∧
    error_types.length = 3 := by
  refine ⟨?_, rfl, rfl, rfl, rfl⟩
  fin_cases c
  · exact Or.inl ⟨rfl, rfl⟩
  · exact Or.inr (Or.inl ⟨rfl, rfl⟩)
  · exact Or.inr (Or.inr ⟨rfl, rfl⟩)

/-- Claim C6 (corrected), counterexample: the histogram both handlers
record into is registered under the metric name
"database_query_duration_seconds", not "database_query_duration" (only the
Python variable bears the shorter name). -/
theorem database_query_duration_name_cx :
    database_query_duration_decl.name ≠ "database_query_duration" ∧
    database_query_duration_decl.name = "database_query_duration_seconds" :=
  ⟨by decide, rfl⟩

/-- Claim C6 (amended): POST /api/orders records the simulated insert
latency with label query_type=insert, and GET /api/users/{user_id} records
the lookup latency with label query_type=select, both into the histogram
registered as "database_query_duration_seconds" with label set
["query_type"]. -/
theorem db_query_histogram_labels (b : Option Json) (r : OrderRand) (s : RegState)
    (uid : String) (e1 e2 : ℚ) :
    ((create_order b r s).1).dbQueryObs = ("insert", r.elapsed) :: s.dbQueryObs ∧
    (get_user uid e1 e2 s).2.dbQueryObs = ("select", e1) :: s.dbQueryObs ∧
    database_query_duration_decl.name = "database_query_duration_seconds" ∧
    database_query_duration_decl.labelNames = ["query_type"] :=
  ⟨create_order_fst_dbQueryObs b r s, rfl, rfl, rfl⟩

/-- Claim C7: the two label combinations of the orders_total counter are
monotonically non-decreasing across any single dispatched request and any
request sequence (every counter mutation in the code is a unit increment). -/
theorem counters_monotone (m p : String) (b : Option Json) (o : Oracle)
    (s : RegState) (reqs : List Request) :
    (s.ordersSuccess ≤ (dispatch m p b o s).2.ordersSuccess ∧
     s.ordersFailed ≤ (dispatch m p b o s).2.ordersFailed) ∧
    (s.ordersSuccess ≤ (run s reqs).ordersSuccess ∧
     s.ordersFailed ≤ (run s reqs).ordersFailed) := by
  refine ⟨⟨?_, ?_⟩, ?_, ?_⟩
  · rw [show (dispatch m p b o s).2 = Request.exec ⟨m, p, b, o⟩ s from rfl,
      exec_ordersSuccess]
    omega
  · rw [show (dispatch m p b o s).2 = Request.exec ⟨m, p, b, o⟩ s from rfl,
      exec_ordersFailed]
    omega
  · rw [run_ordersSuccess]; omega
  · rw [run_ordersFailed]; omega

/-- Claim C8: reading /metrics mutates nothing (the returned state is the
input state, every instrument value included) and two consecutive reads
produce the same exposition text. -/
theorem metrics_read_pure (b b2 : Option Json) (o o2 : Oracle) (s : RegState) :
    dispatch "GET" "/metrics" b o s
      = ({ status := 200, body := Json.str (renderExposition s) }, s) ∧
    (dispatch "GET" "/metrics" b2 o2 (dispatch "GET" "/metrics" b o s).2).1
      = (dispatch "GET" "/metrics" b o s).1 :=
  ⟨rfl, rfl⟩

/-- Claim C9 (corrected), counterexample: a request whose method+path
matches no defined route does not always get the JSON 404: POST /health
(path bound to a GET-only rule) yields Werkzeug's 405 Method Not Allowed,
not 404. -/
theorem wrong_method_not_404_cx :
    (dispatch "POST" "/health" none oracle0 (initState 30)).1.status = 405 ∧
    (405 : ℕ) ≠ 404 ∧
    route "POST" "/health" = RouteMatch.methodNotAllowed :=
  ⟨rfl, by decide, rfl⟩

/-- Claim C9 (amended): for every request whose PATH matches no route rule,
the response is 404 with body {"error": "Not found"} and a warning log
recording the path and method is appended; a known path with a
non-declared method instead yields 405. -/
theorem unmatched_path_404 (method path : String) (b : Option Json) (o : Oracle)
    (s : RegState) (h : route method path = .noMatch) :
    dispatch method path b o s
      = ({ status := 404, body := .obj [("error", Json.str "Not found")] },
         { s with logs := s.logs ++
             [{ level := .warning, msg := "404 Not Found",
                attrs := [("path", Json.str path), ("method", Json.str method)] }] }) := by
  unfold dispatch
  rw [h]
  rfl

/-- Witness for the amended C9 at GET /nope. -/
theorem unmatched_path_404_witness :
    dispatch "GET" "/nope" none oracle0 (initState 30)
      = ({ status := 404, body := .obj [("error", Json.str "Not found")] },
         { initState 30 with logs := (initState 30).logs ++
             [{ level := .warning, msg := "404 Not Found",
                attrs := [("path", Json.str "/nope"), ("method", Json.str "GET")] }] }) :=
  unmatched_path_404 "GET" "/nope" none oracle0 (initState 30) rfl

/-- Claim C10: on a completing successful order, the order id placed in the
log record is one randint(1000, 9999) draw and the order id in the response
body is a second, separately drawn one; at the concrete draws 1000 and 1001
the two visible ids differ. -/
theorem order_ids_independent (kvs : List (String × Json)) (r : OrderRand)
    (s : RegState) (a : ℚ) (hu : r.u > successThreshold)
    (ha : Json.asNum ((kvs.lookup "amount").getD (Json.num 0)) = some a) :
    ((create_order (some (.obj kvs)) r s).2
        = .ok { status := 201, body := orderSuccessBody r.respId } ∧
     ((create_order (some (.obj kvs)) r s).1).logs
        = s.logs ++ [orderSuccessLog r.logId ((kvs.lookup "amount").getD (Json.num 0))
            ((kvs.lookup "customer").getD (Json.str "unknown"))]) ∧
    ((create_order (some aliceBody) { elapsed := 0, u := 1, logId := 1000, respId := 1001 }
        (initState 30)).1).logs
      = [orderSuccessLog 1000 (Json.num 100) (Json.str "alice")] ∧
    (create_order (some aliceBody) { elapsed := 0, u := 1, logId := 1000, respId := 1001 }
        (initState 30)).2 = .ok { status := 201, body := orderSuccessBody 1001 } ∧
    (1000 : ℕ) ≠ 1001 := by
  rw [create_order_obj_eval kvs r s a hu ha]
  exact ⟨⟨rfl, rfl⟩, rfl, rfl, by decide⟩

/-- Witness for C10 with body {"amount": 100} and draws 1000 / 1001. -/
theorem order_ids_independent_witness :
    ((create_order (some (.obj [("amount", Json.num 100)]))
          { elapsed := 0, u := 1, logId := 1000, respId := 1001 } (initState 30)).2
        = .ok { status := 201, body := orderSuccessBody 1001 } ∧
     ((create_order (some (.obj [("amount", Json.num 100)]))
          { elapsed := 0, u := 1, logId := 1000, respId := 1001 } (initState 30)).1).logs
        = (initState 30).logs ++
            [orderSuccessLog 1000 (([("amount", Json.num 100)].lookup "amount").getD (Json.num 0))
              (([("amount", Json.num 100)].lookup "customer").getD (Json.str "unknown"))]) ∧
    ((create_order (some aliceBody) { elapsed := 0, u := 1, logId := 1000, respId := 1001 }
        (initState 30)).1).logs
      = [orderSuccessLog 1000 (Json.num 100) (Json.str "alice")] ∧
    (create_order (some aliceBody) { elapsed := 0, u := 1, logId := 1000, respId := 1001 }
        (initState 30)).2 = .ok { status := 201, body := orderSuccessBody 1001 } ∧
    (1000 : ℕ) ≠ 1001 :=
  order_ids_independent [("amount", Json.num 100)]
    { elapsed := 0, u := 1, logId := 1000, respId := 1001 } (initState 30) 100
    (by decide) rfl

end FlaskDemo
